import Mathlib

/-!
Verification development for the astronomy REST backend.

The definitions below are a shallow embedding of the Python source under
src/app: the database session is modelled as explicit lists of records,
route handlers as functions from stores and validated payloads to
Except-valued results (the error branch models a raised HTTPException),
Pydantic schemas as structures together with boolean validator functions,
and SQLAlchemy query construction as list filtering.  Python floats are
modelled as rationals (only order comparisons occur in the code), and
datetimes as explicit calendar records.
-/

namespace AstronomyApi

/-- HTTP error outcomes raised by the route handlers via HTTPException. -/
inductive ApiError where
  /-- 400 BAD REQUEST: duplicate unique key or other conflict. -/
  | badRequest
  /-- 404 NOT FOUND. -/
  | notFound
  /-- 401 UNAUTHORIZED. -/
  | unauthorized
  /-- 403 FORBIDDEN. -/
  | forbidden
  /-- 422: FastAPI/Pydantic request validation failure, rejected before the handler body runs. -/
  | validationError
deriving DecidableEq, Repr

/-- Enumeration of celestial body types (models.celestial_body.BodyType). -/
inductive BodyType where
  | planet | star | galaxy | nebula | comet | asteroid | black_hole
deriving DecidableEq, Repr

/-- Harvard spectral classes (models.celestial_body.SpectralClass). -/
inductive SpectralClass where
  | O | B | A | F | G | K | M
deriving DecidableEq, Repr

/-- A calendar date, as produced by func.date on a SQL timestamp. -/
structure PyDate where
  year : Nat
  month : Nat
  day : Nat
deriving DecidableEq, Repr

/-- A timestamp: calendar date plus seconds within the day. -/
structure PyDateTime where
  year : Nat
  month : Nat
  day : Nat
  secondOfDay : Nat
deriving DecidableEq, Repr

/-- The date part of a timestamp, modelling func.date(...) in SQL. -/
def PyDateTime.dateOnly (t : PyDateTime) : PyDate :=
  { year := t.year, month := t.month, day := t.day }

/-! ## Password hashing (routers/auth.py)

The external bcrypt library is modelled as an idealized, collision free
keyed KDF: hashing stores the salt and an injective digest of the salt and
the input bytes, and checkpw recomputes the digest with the stored salt.
Passwords are represented by the byte sequence of their UTF-8 encoding
(the Python code operates on password.encode x utf-8). -/

/-- A bcrypt hash value: the salt together with the digest. -/
structure BcryptHash where
  salt : Nat
  digest : List Nat
deriving DecidableEq, Repr

/-- Idealized model of the external bcrypt.hashpw: an injective digest of salt and input. -/
def bcrypt_hashpw (passwordBytes : List Nat) (salt : Nat) : BcryptHash :=
  { salt := salt, digest := salt :: passwordBytes }

/-- Idealized model of the external bcrypt.checkpw: recompute the digest with the stored salt. -/
def bcrypt_checkpw (passwordBytes : List Nat) (h : BcryptHash) : Bool :=
  h.digest == h.salt :: passwordBytes

/-- get_password_hash (routers/auth.py): truncates the UTF-8 bytes to 72 bytes
(the bcrypt limit) before hashing.  The salt drawn by bcrypt.gensalt is an
explicit parameter. -/
def get_password_hash (passwordBytes : List Nat) (salt : Nat) : BcryptHash :=
  bcrypt_hashpw (passwordBytes.take 72) salt

/-- verify_password (routers/auth.py): truncates the plain password to 72 bytes
and checks it against the stored hash.  The passlib fallback branch only fires
for malformed stored hashes, which do not occur in this model. -/
def verify_password (plainBytes : List Nat) (hashed : BcryptHash) : Bool :=
  bcrypt_checkpw (plainBytes.take 72) hashed

/-! ## Users (models/user.py, schemas/auth.py, routers/auth.py) -/

/-- A row of the users table. -/
structure User where
  id : Nat
  username : String
  email : String
  hashed_password : BcryptHash
  full_name : Option String := none
  is_active : Bool := true
  is_superuser : Bool := false
deriving DecidableEq, Repr

/-- UserCreate (schemas/auth.py): registration payload.  The password is kept
as its UTF-8 byte sequence since all uses go through encode. -/
structure UserCreate where
  username : String
  email : String
  full_name : Option String := none
  password : List Nat
deriving DecidableEq, Repr

/-- UserUpdate (schemas/auth.py): every field optional; the outer Option marks
whether the field is present in the payload (model_dump exclude_unset).
The schema has no field for the old password. -/
structure UserUpdate where
  email : Option String := none
  full_name : Option (Option String) := none
  password : Option (List Nat) := none
deriving DecidableEq, Repr

/-- PasswordChange (schemas/auth.py). -/
structure PasswordChange where
  old_password : List Nat
  new_password : List Nat
deriving DecidableEq, Repr

/-- register_user (routers/auth.py): reject a duplicate username, then a
duplicate email, with 400; otherwise persist the new user with a hashed
password. -/
def register_user (users : List User) (newId : Nat) (p : UserCreate) (salt : Nat) :
    Except ApiError (List User) :=
  if users.any (fun u => u.username == p.username) then
    .error .badRequest
  else if users.any (fun u => u.email == p.email) then
    .error .badRequest
  else
    .ok (users ++ [{ id := newId, username := p.username, email := p.email,
                     hashed_password := get_password_hash p.password salt,
                     full_name := p.full_name, is_active := true,
                     is_superuser := false }])

/-- change_password (routers/auth.py): verify the old password against the
stored hash; on mismatch raise 400 before any mutation, otherwise store the
hash of the new password. -/
def change_password (u : User) (pc : PasswordChange) (salt : Nat) :
    Except ApiError User :=
  if !(verify_password pc.old_password u.hashed_password) then
    .error .badRequest
  else
    .ok { u with hashed_password := get_password_hash pc.new_password salt }

/-- update_users_me (routers/auth.py, PUT /auth/me): check email uniqueness
when the email changes, apply the non-password fields present in the payload,
then, if a (truthy, hence nonempty) password is supplied, replace the stored
hash with a hash of it.  No old password is involved. -/
def update_users_me (users : List User) (current : User) (upd : UserUpdate)
    (salt : Nat) : Except ApiError User :=
  if (match upd.email with
      | some e => e != current.email &&
          users.any (fun v => v.email == e && v.id != current.id)
      | none => false) then
    .error .badRequest
  else
    let u1 : User := { current with
      email := upd.email.getD current.email,
      full_name := upd.full_name.getD current.full_name }
    match upd.password with
    | some pw =>
        if pw.isEmpty then .ok u1
        else .ok { u1 with hashed_password := get_password_hash pw salt }
    | none => .ok u1

/-! ## Celestial bodies (models/celestial_body.py, schemas/celestial_body.py,
routers/celestial_bodies.py, services/search.py) -/

/-- A row of the celestial_bodies table.  The name column carries a unique
constraint; parent_id is a nullable self reference. -/
structure CelestialBody where
  id : Nat
  name : String
  type : BodyType
  description : Option String := none
  mass : Option Rat := none
  radius : Option Rat := none
  temperature : Option Rat := none
  distance_from_earth : Option Rat := none
  spectral_class : Option SpectralClass := none
  absolute_magnitude : Option Rat := none
  apparent_magnitude : Option Rat := none
  right_ascension : Option Rat := none
  declination : Option Rat := none
  parent_id : Option Nat := none
deriving DecidableEq, Repr

/-- CelestialBodyCreate (schemas/celestial_body.py): the creation payload,
one field per column except the generated id and timestamps. -/
structure CelestialBodyCreate where
  name : String
  type : BodyType
  description : Option String := none
  mass : Option Rat := none
  radius : Option Rat := none
  temperature : Option Rat := none
  distance_from_earth : Option Rat := none
  spectral_class : Option SpectralClass := none
  absolute_magnitude : Option Rat := none
  apparent_magnitude : Option Rat := none
  right_ascension : Option Rat := none
  declination : Option Rat := none
  parent_id : Option Nat := none
deriving DecidableEq, Repr

/-- The row built by CelestialBody(**body.model_dump()) with a generated id. -/
def CelestialBodyCreate.toBody (p : CelestialBodyCreate) (newId : Nat) :
    CelestialBody :=
  { id := newId, name := p.name, type := p.type, description := p.description,
    mass := p.mass, radius := p.radius, temperature := p.temperature,
    distance_from_earth := p.distance_from_earth,
    spectral_class := p.spectral_class,
    absolute_magnitude := p.absolute_magnitude,
    apparent_magnitude := p.apparent_magnitude,
    right_ascension := p.right_ascension, declination := p.declination,
    parent_id := p.parent_id }

/-- CelestialBodyUpdate (schemas/celestial_body.py): all fields optional.  The
outer Option marks presence in the payload (model_dump exclude_unset); for
columns that are themselves nullable the inner value is again an Option. -/
structure CelestialBodyUpdate where
  name : Option String := none
  type : Option BodyType := none
  description : Option (Option String) := none
  mass : Option (Option Rat) := none
  radius : Option (Option Rat) := none
  temperature : Option (Option Rat) := none
  distance_from_earth : Option (Option Rat) := none
  spectral_class : Option (Option SpectralClass) := none
  absolute_magnitude : Option (Option Rat) := none
  apparent_magnitude : Option (Option Rat) := none
  right_ascension : Option (Option Rat) := none
  declination : Option (Option Rat) := none
  parent_id : Option (Option Nat) := none
deriving DecidableEq, Repr

/-- The shared validate_spectral_class field validator
(schemas/celestial_body.py): a non-null spectral class is allowed only when
the type field of the same payload (info.data.get, None when absent) is star. -/
def validate_spectral_class (v : Option SpectralClass) (body_type : Option BodyType) :
    Bool :=
  match v with
  | some _ => body_type == some BodyType.star
  | none => true

/-- The validate_temperature field validator: at most 100 million Kelvin. -/
def validate_temperature (v : Option Rat) : Bool :=
  match v with
  | some t => decide (t ≤ 100000000)
  | none => true

/-- Field-level validation of CelestialBodyBase / CelestialBodyCreate
(schemas/celestial_body.py): Field bounds plus the two field validators. -/
def validate_celestial_body_create (p : CelestialBodyCreate) : Bool :=
  (1 ≤ p.name.length && p.name.length ≤ 200) &&
  p.mass.all (fun v => decide (0 ≤ v)) &&
  p.radius.all (fun v => decide (0 ≤ v)) &&
  p.temperature.all (fun v => decide (0 ≤ v)) &&
  p.distance_from_earth.all (fun v => decide (0 ≤ v)) &&
  p.right_ascension.all (fun v => decide (0 ≤ v && v ≤ 24)) &&
  p.declination.all (fun v => decide (-90 ≤ v && v ≤ 90)) &&
  p.parent_id.all (fun v => decide (1 ≤ v)) &&
  validate_spectral_class p.spectral_class (some p.type) &&
  validate_temperature p.temperature

/-- Field-level validation of CelestialBodyUpdate: the same bounds on the
fields present in the payload.  Pydantic field validators run on provided
fields only; the spectral-class validator sees the type field of the payload
itself, which is None when absent. -/
def validate_celestial_body_update (u : CelestialBodyUpdate) : Bool :=
  u.name.all (fun s => 1 ≤ s.length && s.length ≤ 200) &&
  u.mass.all (fun v => v.all (fun x => decide (0 ≤ x))) &&
  u.radius.all (fun v => v.all (fun x => decide (0 ≤ x))) &&
  u.temperature.all (fun v => v.all (fun x => decide (0 ≤ x))) &&
  u.distance_from_earth.all (fun v => v.all (fun x => decide (0 ≤ x))) &&
  u.right_ascension.all (fun v => v.all (fun x => decide (0 ≤ x && x ≤ 24))) &&
  u.declination.all (fun v => v.all (fun x => decide (-90 ≤ x && x ≤ 90))) &&
  u.parent_id.all (fun v => v.all (fun x => decide (1 ≤ x))) &&
  u.spectral_class.all (fun v => validate_spectral_class v u.type) &&
  u.temperature.all (fun v => validate_temperature v)

/-- The update loop of update_celestial_body: setattr for each field present
in the payload, every other column keeps its stored value. -/
def apply_celestial_body_update (b : CelestialBody) (u : CelestialBodyUpdate) :
    CelestialBody :=
  { b with
    name := u.name.getD b.name,
    type := u.type.getD b.type,
    description := u.description.getD b.description,
    mass := u.mass.getD b.mass,
    radius := u.radius.getD b.radius,
    temperature := u.temperature.getD b.temperature,
    distance_from_earth := u.distance_from_earth.getD b.distance_from_earth,
    spectral_class := u.spectral_class.getD b.spectral_class,
    absolute_magnitude := u.absolute_magnitude.getD b.absolute_magnitude,
    apparent_magnitude := u.apparent_magnitude.getD b.apparent_magnitude,
    right_ascension := u.right_ascension.getD b.right_ascension,
    declination := u.declination.getD b.declination,
    parent_id := u.parent_id.getD b.parent_id }

/-- create_celestial_body (routers/celestial_bodies.py): 400 when a body with
the same name exists; when a truthy parent_id is given (Python truthiness, so
the check is skipped for 0, which validation rules out anyway) and no body
has that id, 404; otherwise persist the new row. -/
def create_celestial_body (store : List CelestialBody) (newId : Nat)
    (p : CelestialBodyCreate) : Except ApiError (List CelestialBody) :=
  if store.any (fun b => b.name == p.name) then
    .error .badRequest
  else if p.parent_id.getD 0 != 0 &&
      !(store.any (fun b => b.id == p.parent_id.getD 0)) then
    .error .notFound
  else
    .ok (store ++ [p.toBody newId])

/-- The POST /celestial-bodies endpoint: Pydantic validation runs before the
handler body; an invalid payload never reaches the persistence layer. -/
def create_celestial_body_endpoint (store : List CelestialBody) (newId : Nat)
    (p : CelestialBodyCreate) : Except ApiError (List CelestialBody) :=
  if validate_celestial_body_create p then create_celestial_body store newId p
  else .error .validationError

/-- The loop body of create_batch_bodies: bodies whose name already exists
(including names added earlier in the same batch, which the in-session select
sees through autoflush) are silently skipped; the rest are inserted.  Returns
the final store together with the created rows in request order. -/
def create_batch_go (store : List CelestialBody) (nextId : Nat)
    (ps : List CelestialBodyCreate) (created : List CelestialBody) :
    List CelestialBody × List CelestialBody :=
  match ps with
  | [] => (store, created.reverse)
  | p :: rest =>
    if store.any (fun b => b.name == p.name) then
      create_batch_go store nextId rest created
    else
      create_batch_go (store ++ [p.toBody nextId]) (nextId + 1) rest
        (p.toBody nextId :: created)

/-- create_batch_bodies (routers/celestial_bodies.py): the handler body never
raises; duplicates are skipped and the created bodies are returned with 201. -/
def create_batch_bodies (store : List CelestialBody) (nextId : Nat)
    (ps : List CelestialBodyCreate) :
    Except ApiError (List CelestialBody × List CelestialBody) :=
  .ok (create_batch_go store nextId ps [])

/-- update_celestial_body (routers/celestial_bodies.py): 404 when the id is
absent, otherwise apply the payload to the matching row. -/
def update_celestial_body (store : List CelestialBody) (body_id : Nat)
    (u : CelestialBodyUpdate) : Except ApiError (List CelestialBody) :=
  if store.any (fun b => b.id == body_id) then
    .ok (store.map (fun b =>
      if b.id == body_id then apply_celestial_body_update b u else b))
  else
    .error .notFound

/-- The PUT /celestial-bodies endpoint with schema validation in front. -/
def update_celestial_body_endpoint (store : List CelestialBody) (body_id : Nat)
    (u : CelestialBodyUpdate) : Except ApiError (List CelestialBody) :=
  if validate_celestial_body_update u then update_celestial_body store body_id u
  else .error .validationError

/-- delete_celestial_body (routers/celestial_bodies.py): 404 when absent,
otherwise remove the row. -/
def delete_celestial_body (store : List CelestialBody) (body_id : Nat) :
    Except ApiError (List CelestialBody) :=
  if store.any (fun b => b.id == body_id) then
    .ok (store.filter (fun b => b.id != body_id))
  else
    .error .notFound

/-- get_children (routers/celestial_bodies.py): select the rows whose
parent_id equals the given id; when that list is empty the handler raises 404
instead of returning the empty list. -/
def get_children (store : List CelestialBody) (body_id : Nat) :
    Except ApiError (List CelestialBody) :=
  let children := store.filter (fun b => b.parent_id == some body_id)
  if children.isEmpty then .error .notFound else .ok children

/-! ## List and search endpoints over celestial bodies -/

/-- SQL semantics of the ilike pattern with percent on both sides:
case-insensitive containment of the pattern in the (non-null) name, with
case folded character by character. -/
def ilike_contains (name pat : String) : Bool :=
  decide (List.IsInfix (pat.toList.map Char.toLower)
    (name.toList.map Char.toLower))

/-- SQL semantics of col greater-or-equal bound on a nullable column: a NULL
value satisfies no comparison, so the row is excluded. -/
def sql_ge (col : Option Rat) (bound : Rat) : Bool :=
  match col with
  | some v => decide (bound ≤ v)
  | none => false

/-- SQL semantics of col less-or-equal bound on a nullable column. -/
def sql_le (col : Option Rat) (bound : Rat) : Bool :=
  match col with
  | some v => decide (v ≤ bound)
  | none => false

/-- Query parameters of GET /celestial-bodies (read_celestial_bodies).  skip
is a Nat, so its ge-0 constraint is structural. -/
structure ListBodiesParams where
  skip : Nat := 0
  limit : Nat := 10
  search : Option String := none
  body_type : Option BodyType := none
  min_distance : Option Rat := none
  max_distance : Option Rat := none
deriving DecidableEq, Repr

/-- FastAPI Query validation for read_celestial_bodies: limit in 1..100 and
the two distances non-negative. -/
def validate_list_params (q : ListBodiesParams) : Bool :=
  (1 ≤ q.limit && q.limit ≤ 100) &&
  q.min_distance.all (fun v => decide (0 ≤ v)) &&
  q.max_distance.all (fun v => decide (0 ≤ v))

/-- The row predicate assembled by the conditional where-clauses of
read_celestial_bodies.  An empty search string is falsy in Python, so it
applies no name filter; min and max distance are applied whenever not None. -/
def matches_list_filters (q : ListBodiesParams) (b : CelestialBody) : Bool :=
  (match q.search with
   | some s => if s = "" then true else ilike_contains b.name s
   | none => true) &&
  q.body_type.all (fun t => b.type == t) &&
  (match q.min_distance with
   | some m => sql_ge b.distance_from_earth m
   | none => true) &&
  (match q.max_distance with
   | some m => sql_le b.distance_from_earth m
   | none => true)

/-- read_celestial_bodies (routers/celestial_bodies.py): validate the query
parameters, filter, then paginate with offset and limit.  A request matching
nothing yields the empty list with status 200. -/
def read_celestial_bodies (store : List CelestialBody) (q : ListBodiesParams) :
    Except ApiError (List CelestialBody) :=
  if validate_list_params q then
    .ok (((store.filter (matches_list_filters q)).drop q.skip).take q.limit)
  else
    .error .validationError

/-! ## Observations (models/observation.py, schemas/observation.py,
routers/observations.py) -/

/-- A row of the observations table (columns as used by the routers and
schemas). -/
structure Observation where
  id : Nat
  astronomer_id : Nat
  celestial_body_id : Nat
  observation_date : PyDateTime
  location : Option String := none
  equipment : Option String := none
  duration_hours : Option Rat := none
  weather_conditions : Option String := none
  notes : Option String := none
  data_collected : Option String := none
deriving DecidableEq, Repr

/-- The unique key the duplicate check of create_observation guards:
astronomer, body, and the calendar date of the observation timestamp. -/
def obsTriple (o : Observation) : Nat × Nat × PyDate :=
  (o.astronomer_id, o.celestial_body_id, o.observation_date.dateOnly)

/-- ObservationCreate (schemas/observation.py). -/
structure ObservationCreate where
  astronomer_id : Nat
  celestial_body_id : Nat
  observation_date : PyDateTime
  location : Option String := none
  equipment : Option String := none
  duration_hours : Option Rat := none
  weather_conditions : Option String := none
  notes : Option String := none
  data_collected : Option String := none
deriving DecidableEq, Repr

/-- The row built by Observation(**observation.model_dump()). -/
def ObservationCreate.toObservation (p : ObservationCreate) (newId : Nat) :
    Observation :=
  { id := newId, astronomer_id := p.astronomer_id,
    celestial_body_id := p.celestial_body_id,
    observation_date := p.observation_date, location := p.location,
    equipment := p.equipment, duration_hours := p.duration_hours,
    weather_conditions := p.weather_conditions, notes := p.notes,
    data_collected := p.data_collected }

/-- ObservationUpdate (schemas/observation.py): only these six fields exist on
the update schema; astronomer_id, celestial_body_id and observation_date are
not part of it.  Outer Option is payload presence (exclude_unset). -/
structure ObservationUpdate where
  location : Option (Option String) := none
  equipment : Option (Option String) := none
  duration_hours : Option (Option Rat) := none
  weather_conditions : Option (Option String) := none
  notes : Option (Option String) := none
  data_collected : Option (Option String) := none
deriving DecidableEq, Repr

/-- The setattr loop of update_observation over the fields present in the
payload. -/
def apply_observation_update (o : Observation) (u : ObservationUpdate) :
    Observation :=
  { o with
    location := u.location.getD o.location,
    equipment := u.equipment.getD o.equipment,
    duration_hours := u.duration_hours.getD o.duration_hours,
    weather_conditions := u.weather_conditions.getD o.weather_conditions,
    notes := u.notes.getD o.notes,
    data_collected := u.data_collected.getD o.data_collected }

/-! ## Astronomers (models/astronomer.py, schemas/astronomer.py,
routers/astronomers.py) -/

/-- A row of the astronomers table (columns used by the schemas). -/
structure Astronomer where
  id : Nat
  first_name : String
  last_name : String
  birth_date : Option PyDate := none
  death_date : Option PyDate := none
  nationality : Option String := none
  biography : Option String := none
  achievements : Option String := none
  notable_discoveries : Option String := none
  academic_degree : Option String := none
  institution : Option String := none
  is_active : Bool := true
deriving DecidableEq, Repr

/-- AstronomerUpdate (schemas/astronomer.py): all fields optional, outer
Option is payload presence. -/
structure AstronomerUpdate where
  first_name : Option String := none
  last_name : Option String := none
  birth_date : Option (Option PyDate) := none
  death_date : Option (Option PyDate) := none
  nationality : Option (Option String) := none
  biography : Option (Option String) := none
  achievements : Option (Option String) := none
  notable_discoveries : Option (Option String) := none
  academic_degree : Option (Option String) := none
  institution : Option (Option String) := none
  is_active : Option Bool := none
deriving DecidableEq, Repr

/-- The setattr loop of update_astronomer over the fields present in the
payload. -/
def apply_astronomer_update (a : Astronomer) (u : AstronomerUpdate) :
    Astronomer :=
  { a with
    first_name := u.first_name.getD a.first_name,
    last_name := u.last_name.getD a.last_name,
    birth_date := u.birth_date.getD a.birth_date,
    death_date := u.death_date.getD a.death_date,
    nationality := u.nationality.getD a.nationality,
    biography := u.biography.getD a.biography,
    achievements := u.achievements.getD a.achievements,
    notable_discoveries := u.notable_discoveries.getD a.notable_discoveries,
    academic_degree := u.academic_degree.getD a.academic_degree,
    institution := u.institution.getD a.institution,
    is_active := u.is_active.getD a.is_active }

/-- update_astronomer (routers/astronomers.py): 404 when absent, otherwise
apply the payload to the matching row. -/
def update_astronomer (store : List Astronomer) (astronomer_id : Nat)
    (u : AstronomerUpdate) : Except ApiError (List Astronomer) :=
  if store.any (fun a => a.id == astronomer_id) then
    .ok (store.map (fun a =>
      if a.id == astronomer_id then apply_astronomer_update a u else a))
  else
    .error .notFound

/-! ## Observation route handlers -/

/-- create_observation (routers/observations.py): 404 for a missing
astronomer, 404 for a missing body, 400 when an observation by the same
astronomer of the same body on the same calendar date already exists,
otherwise persist. -/
def create_observation (astronomers : List Astronomer)
    (bodies : List CelestialBody) (obs : List Observation) (newId : Nat)
    (p : ObservationCreate) : Except ApiError (List Observation) :=
  if !(astronomers.any (fun a => a.id == p.astronomer_id)) then
    .error .notFound
  else if !(bodies.any (fun b => b.id == p.celestial_body_id)) then
    .error .notFound
  else if obs.any (fun o =>
      o.astronomer_id == p.astronomer_id &&
      o.celestial_body_id == p.celestial_body_id &&
      o.observation_date.dateOnly == p.observation_date.dateOnly) then
    .error .badRequest
  else
    .ok (obs ++ [p.toObservation newId])

/-- update_observation (routers/observations.py): 404 when absent, otherwise
apply the six updatable fields to the matching row. -/
def update_observation (obs : List Observation) (observation_id : Nat)
    (u : ObservationUpdate) : Except ApiError (List Observation) :=
  if obs.any (fun o => o.id == observation_id) then
    .ok (obs.map (fun o =>
      if o.id == observation_id then apply_observation_update o u else o))
  else
    .error .notFound

/-- delete_observation (routers/observations.py): 404 when absent, otherwise
remove the row. -/
def delete_observation (obs : List Observation) (observation_id : Nat) :
    Except ApiError (List Observation) :=
  if obs.any (fun o => o.id == observation_id) then
    .ok (obs.filter (fun o => o.id != observation_id))
  else
    .error .notFound

/-! ## The observation store as a transition system

Every way the observations table can change: the three observation handlers,
plus cascade deletion of a sublist of rows when an astronomer or a body is
deleted (ondelete CASCADE on both foreign keys). -/

/-- One state change of the observations table. -/
inductive ObsStep : List Observation → List Observation → Prop where
  | create (astronomers : List Astronomer) (bodies : List CelestialBody)
      (s s' : List Observation) (newId : Nat) (p : ObservationCreate)
      (h : create_observation astronomers bodies s newId p = .ok s') :
      ObsStep s s'
  | update (s s' : List Observation) (i : Nat) (u : ObservationUpdate)
      (h : update_observation s i u = .ok s') : ObsStep s s'
  | delete (s s' : List Observation) (i : Nat)
      (h : delete_observation s i = .ok s') : ObsStep s s'
  | cascade (s s' : List Observation) (h : s'.Sublist s) : ObsStep s s'

/-- The observation states reachable from the empty table. -/
def ObsReachable (s : List Observation) : Prop :=
  Relation.ReflTransGen ObsStep [] s

/-- The uniqueness invariant: no two rows share the
(astronomer, body, calendar date) triple. -/
def ObsUnique (s : List Observation) : Prop :=
  s.Pairwise (fun a b => obsTriple a ≠ obsTriple b)

/-! ## Advanced search (schemas CelestialBodySearch, services/search.py) -/

/-- CelestialBodySearch (schemas/celestial_body.py): the optional filter
parameters of GET /celestial-bodies/search/advanced. -/
structure CelestialBodySearch where
  name : Option String := none
  type : Option BodyType := none
  min_distance : Option Rat := none
  max_distance : Option Rat := none
  min_magnitude : Option Rat := none
  max_magnitude : Option Rat := none
  spectral_class : Option SpectralClass := none
  has_observations : Option Bool := none
deriving DecidableEq, Repr

/-- apply_search_filters (services/search.py): build the list of filter
predicates with one conditional append per parameter, in source order.  A
parameter that is absent (or, for name, the falsy empty string) contributes
nothing.  The has_observations filter is an EXISTS subquery against the
observations table, passed here as context. -/
def apply_search_filters (obs : List Observation) (q : CelestialBodySearch) :
    List (CelestialBody → Bool) :=
  let filters : List (CelestialBody → Bool) := []
  let filters := filters ++ (match q.name with
    | some s => if s = "" then [] else [fun b => ilike_contains b.name s]
    | none => [])
  let filters := filters ++ (match q.type with
    | some t => [fun b => b.type == t]
    | none => [])
  let filters := filters ++ (match q.min_distance with
    | some m => [fun b => sql_ge b.distance_from_earth m]
    | none => [])
  let filters := filters ++ (match q.max_distance with
    | some m => [fun b => sql_le b.distance_from_earth m]
    | none => [])
  let filters := filters ++ (match q.min_magnitude with
    | some m => [fun b => sql_ge b.apparent_magnitude m]
    | none => [])
  let filters := filters ++ (match q.max_magnitude with
    | some m => [fun b => sql_le b.apparent_magnitude m]
    | none => [])
  let filters := filters ++ (match q.spectral_class with
    | some sc => [fun b => b.spectral_class == some sc]
    | none => [])
  let filters := filters ++ (match q.has_observations with
    | some true => [fun b => obs.any (fun o => o.celestial_body_id == b.id)]
    | some false => [fun b => !(obs.any (fun o => o.celestial_body_id == b.id))]
    | none => [])
  filters

/-- A row passes the composed where clause exactly when it passes every
filter of the list (and_ over the filters; an empty list means no where
clause at all). -/
def matches_search (obs : List Observation) (q : CelestialBodySearch)
    (b : CelestialBody) : Bool :=
  (apply_search_filters obs q).all (fun f => f b)

/-- The specification-side reading of the search contract: the logical AND of
all supplied filters, where an absent filter imposes no constraint.  Written
from the words of the spec, to be compared with the predicate assembled by
apply_search_filters. -/
def SatisfiesSearch (obs : List Observation) (q : CelestialBodySearch)
    (b : CelestialBody) : Prop :=
  (∀ s, q.name = some s →
    List.IsInfix (s.toList.map Char.toLower)
      (b.name.toList.map Char.toLower)) ∧
  (∀ t, q.type = some t → b.type = t) ∧
  (∀ m, q.min_distance = some m →
    ∃ d, b.distance_from_earth = some d ∧ m ≤ d) ∧
  (∀ m, q.max_distance = some m →
    ∃ d, b.distance_from_earth = some d ∧ d ≤ m) ∧
  (∀ m, q.min_magnitude = some m →
    ∃ d, b.apparent_magnitude = some d ∧ m ≤ d) ∧
  (∀ m, q.max_magnitude = some m →
    ∃ d, b.apparent_magnitude = some d ∧ d ≤ m) ∧
  (∀ sc, q.spectral_class = some sc → b.spectral_class = some sc) ∧
  (q.has_observations = some true →
    ∃ o ∈ obs, o.celestial_body_id = b.id) ∧
  (q.has_observations = some false →
    ¬ ∃ o ∈ obs, o.celestial_body_id = b.id)

/-! ## Uniqueness predicates for the conflict claims -/

/-- No two persisted bodies share a name (the unique constraint on the name
column). -/
def BodyNamesUnique (store : List CelestialBody) : Prop :=
  store.Pairwise (fun a b => a.name ≠ b.name)

/-- No two persisted users share a username or an email (the two unique
constraints on the users table). -/
def UserKeysUnique (users : List User) : Prop :=
  users.Pairwise (fun a b => a.username ≠ b.username ∧ a.email ≠ b.email)

/-! ## Concrete records used to exercise the handlers -/

/-- A persisted planet named Mars. -/
def marsBody : CelestialBody :=
  { id := 1, name := "Mars", type := BodyType.planet }

/-- A creation payload whose name duplicates the persisted Mars row. -/
def marsPayload : CelestialBodyCreate :=
  { name := "Mars", type := BodyType.planet }

/-- A creation payload for a star carrying a spectral class. -/
def siriusPayload : CelestialBodyCreate :=
  { name := "Sirius", type := BodyType.star,
    spectral_class := some SpectralClass.A }

/-- The persisted row for the Sirius payload. -/
def siriusBody : CelestialBody := siriusPayload.toBody 1

/-- An update payload that only changes the type of a body to planet. -/
def typeChangeUpdate : CelestialBodyUpdate :=
  { type := some BodyType.planet }

/-- The two-step run behind the C4 scenario: create a star with a spectral
class, then change its type to planet without touching spectral_class. -/
def typeChangeRun : Except ApiError (List CelestialBody) :=
  match create_celestial_body_endpoint [] 1 siriusPayload with
  | .ok s => update_celestial_body_endpoint s 1 typeChangeUpdate
  | .error e => .error e

/-- A registered user whose stored hash was produced from the bytes of the
password abcdefgh with salt 1. -/
def demoUser : User :=
  { id := 1, username := "ann", email := "ann@x.com",
    hashed_password := get_password_hash [97, 98, 99, 100, 101, 102, 103, 104] 1 }

/-- A PUT /auth/me payload that carries only a new password. -/
def demoPasswordOnlyUpdate : UserUpdate :=
  { password := some [78, 101, 119, 112, 97, 115, 115, 49] }

/-- A persisted astronomer. -/
def demoAstronomer : Astronomer :=
  { id := 1, first_name := "Edwin", last_name := "Hubble" }

/-- A persisted observation of Mars by the demo astronomer. -/
def demoObservation : Observation :=
  { id := 1, astronomer_id := 1, celestial_body_id := 1,
    observation_date := { year := 2020, month := 5, day := 3,
                          secondOfDay := 7200 } }

/-- A creation payload duplicating the (astronomer, body, date) triple of the
demo observation at a different time of day. -/
def demoDuplicateObservation : ObservationCreate :=
  { astronomer_id := 1, celestial_body_id := 1,
    observation_date := { year := 2020, month := 5, day := 3,
                          secondOfDay := 70000 } }

/-- The creation payload whose persisted row is demoObservation. -/
def demoObservationCreate : ObservationCreate :=
  { astronomer_id := 1, celestial_body_id := 1,
    observation_date := { year := 2020, month := 5, day := 3,
                          secondOfDay := 7200 } }

/-- An observation update payload carrying only new notes. -/
def demoNotesUpdate : ObservationUpdate :=
  { notes := some (some "clear sky") }

/-! ## Bridging lemmas between the boolean filters and their logical reading -/

theorem sql_ge_eq_true (col : Option Rat) (m : Rat) :
    sql_ge col m = true ↔ ∃ d, col = some d ∧ m ≤ d := by
  cases col <;> simp [sql_ge]

theorem sql_le_eq_true (col : Option Rat) (m : Rat) :
    sql_le col m = true ↔ ∃ d, col = some d ∧ d ≤ m := by
  cases col <;> simp [sql_le]

theorem ilike_contains_eq_true (name pat : String) :
    ilike_contains name pat = true ↔
      List.IsInfix (pat.toList.map Char.toLower)
        (name.toList.map Char.toLower) := by
  simp [ilike_contains]

/-! ## C10: bcrypt 72-byte truncation -/

/-- Claim C10: password hashing and verification operate only on the first 72
bytes of the UTF-8 encoding; two passwords whose encodings agree on the first
72 bytes are interchangeable: a hash produced from either verifies against
the other. -/
theorem password_prefix72_interchangeable
    (p1 p2 : List Nat) (salt : Nat) (h : p1.take 72 = p2.take 72) :
    verify_password p2 (get_password_hash p1 salt) = true ∧
    verify_password p1 (get_password_hash p2 salt) = true := by
  constructor <;>
    simp [verify_password, get_password_hash, bcrypt_checkpw, bcrypt_hashpw, h]

/-- Claim C10, witness: two concrete passwords differing only past byte 72
verify against each other's hashes. -/
theorem password_prefix72_interchangeable_witness :
    (List.replicate 73 0).take 72 = (List.replicate 72 0 ++ [1]).take 72 ∧
    verify_password (List.replicate 72 0 ++ [1])
      (get_password_hash (List.replicate 73 0) 5) = true := by
  refine ⟨by decide, ?_⟩
  exact (password_prefix72_interchangeable (List.replicate 73 0)
    (List.replicate 72 0 ++ [1]) 5 (by decide)).1

/-! ## C6: min_distance above max_distance -/

/-- Claim C6: a GET /celestial-bodies request with min_distance 10 and
max_distance 5 passes parameter validation (both are non-negative and there
is no cross-field range check on this endpoint) and returns the empty list,
whatever the store holds, because the two distance filters are jointly
unsatisfiable. -/
theorem min_above_max_distance_yields_empty (store : List CelestialBody) :
    read_celestial_bodies store
      { skip := 0, limit := 10, search := none, body_type := none,
        min_distance := some 10, max_distance := some 5 } = .ok [] := by
  have hall : ∀ b : CelestialBody,
      matches_list_filters
        { skip := 0, limit := 10, search := none, body_type := none,
          min_distance := some 10, max_distance := some 5 } b = false := by
    intro b
    cases hd : b.distance_from_earth with
    | none => simp [matches_list_filters, sql_ge, sql_le, hd]
    | some v =>
      by_cases hv : (10 : Rat) ≤ v
      · have h5 : ¬ v ≤ 5 := by linarith
        simp [matches_list_filters, sql_ge, sql_le, hd, hv, h5]
      · simp [matches_list_filters, sql_ge, sql_le, hd, hv]
  have hfil : store.filter
      (matches_list_filters
        { skip := 0, limit := 10, search := none, body_type := none,
          min_distance := some 10, max_distance := some 5 }) = [] :=
    List.filter_eq_nil_iff.mpr (fun b _ => by simp [hall b])
  simp [read_celestial_bodies, validate_list_params, hfil]

/-- Claim C6, witness: the same request evaluated on a concrete store with a
body at distance 7 (which satisfies each bound separately) returns the empty
list. -/
theorem min_above_max_distance_yields_empty_witness :
    read_celestial_bodies
      [{ marsBody with distance_from_earth := some 7 }]
      { skip := 0, limit := 10, search := none, body_type := none,
        min_distance := some 10, max_distance := some 5 } = .ok [] :=
  min_above_max_distance_yields_empty
    [{ marsBody with distance_from_earth := some 7 }]

/-! ## C8: list endpoints on an empty match -/

/-- Claim C8, counterexample: the children listing is not empty-list-on-no-
match.  For a store holding only the (childless) Mars row, GET
/celestial-bodies/1/children raises 404 instead of returning the empty list
with a success status. -/
theorem children_of_childless_body_not_found :
    get_children [marsBody] 1 = .error ApiError.notFound := by
  rfl

/-- Claim C8, amended: the main list endpoint GET /celestial-bodies returns
the empty list with a success status whenever its filters match no record;
the children listing GET /celestial-bodies/id/children instead returns 404
whenever no record has the given id as parent. -/
theorem list_empty_match_amended :
    (∀ (store : List CelestialBody) (q : ListBodiesParams),
       validate_list_params q = true →
       (∀ b ∈ store, matches_list_filters q b = false) →
       read_celestial_bodies store q = .ok []) ∧
    (∀ (store : List CelestialBody) (body_id : Nat),
       (∀ b ∈ store, b.parent_id ≠ some body_id) →
       get_children store body_id = .error .notFound) := by
  constructor
  · intro store q hv hnone
    have hfil : store.filter (matches_list_filters q) = [] :=
      List.filter_eq_nil_iff.mpr (fun b hb => by simp [hnone b hb])
    simp [read_celestial_bodies, hv, hfil]
  · intro store body_id h
    have hfil : store.filter (fun b => b.parent_id == some body_id) = [] :=
      List.filter_eq_nil_iff.mpr (fun b hb => by simp [h b hb])
    simp [get_children, hfil]

/-- Claim C8, witness: both amended branches at concrete inputs - a store
whose single body is a planet, filtered for stars, and queried for children
of id 7. -/
theorem list_empty_match_amended_witness :
    read_celestial_bodies [marsBody]
      { skip := 0, limit := 10, search := none, body_type := some BodyType.star,
        min_distance := none, max_distance := none } = .ok [] ∧
    get_children [marsBody] 7 = .error .notFound := by
  constructor
  · exact list_empty_match_amended.1 [marsBody]
      { skip := 0, limit := 10, search := none, body_type := some BodyType.star,
        min_distance := none, max_distance := none }
      (by decide) (by intro b hb; fin_cases hb; decide)
  · exact list_empty_match_amended.2 [marsBody] 7
      (by intro b hb; fin_cases hb; decide)

/-! ## C7: password replacement and old-password verification -/

/-- Claim C7, counterexample: PUT /auth/me (update_users_me) replaces the
stored password hash from a payload that carries only a new password - the
UserUpdate schema has no old-password field, so no old-password verification
takes place, yet the operation succeeds and the hash changes. -/
theorem update_me_replaces_hash_without_old_password :
    update_users_me [demoUser] demoUser demoPasswordOnlyUpdate 2 =
      .ok { demoUser with
            hashed_password :=
              get_password_hash [78, 101, 119, 112, 97, 115, 115, 49] 2 } ∧
    get_password_hash [78, 101, 119, 112, 97, 115, 115, 49] 2 ≠
      demoUser.hashed_password := by
  exact ⟨rfl, by decide⟩

/-- Claim C7, amended: the change-password endpoint does verify the supplied
old password against the stored hash, rejecting the request (and leaving the
hash untouched, since the handler raises before any mutation) when the
verification fails, and storing the hash of the new password when it
succeeds; the PUT /auth/me path, however, can replace the hash without any
old-password verification. -/
theorem change_password_verifies_old_amended :
    (∀ (u : User) (pc : PasswordChange) (salt : Nat),
       verify_password pc.old_password u.hashed_password = false →
       change_password u pc salt = .error .badRequest) ∧
    (∀ (u : User) (pc : PasswordChange) (salt : Nat),
       verify_password pc.old_password u.hashed_password = true →
       change_password u pc salt =
         .ok { u with
               hashed_password := get_password_hash pc.new_password salt }) := by
  constructor <;> intro u pc salt h <;> simp [change_password, h]

/-- Claim C7, witness: a wrong old password is rejected with 400, and the
correct old password leads to the new hash being stored. -/
theorem change_password_verifies_old_amended_witness :
    verify_password [1, 2, 3] demoUser.hashed_password = false ∧
    change_password demoUser
      { old_password := [1, 2, 3],
        new_password := [78, 101, 119, 112, 97, 115, 115, 49] } 3 =
      .error .badRequest ∧
    verify_password [97, 98, 99, 100, 101, 102, 103, 104]
      demoUser.hashed_password = true ∧
    change_password demoUser
      { old_password := [97, 98, 99, 100, 101, 102, 103, 104],
        new_password := [78, 101, 119, 112, 97, 115, 115, 49] } 3 =
      .ok { demoUser with
            hashed_password :=
              get_password_hash [78, 101, 119, 112, 97, 115, 115, 49] 3 } := by
  refine ⟨by decide, ?_, by decide, ?_⟩
  · exact change_password_verifies_old_amended.1 demoUser
      { old_password := [1, 2, 3],
        new_password := [78, 101, 119, 112, 97, 115, 115, 49] } 3 (by decide)
  · exact change_password_verifies_old_amended.2 demoUser
      { old_password := [97, 98, 99, 100, 101, 102, 103, 104],
        new_password := [78, 101, 119, 112, 97, 115, 115, 49] } 3 (by decide)

/-! ## C4: spectral class only for stars -/

/-- Claim C4, counterexample: create a star with a spectral class, then
update it with a payload that only sets the type to planet.  Both payloads
pass validation, and the run persists a non-star record whose spectral_class
is still set - contradicting the claim that no persisted non-star record has
a spectral_class set through these operations. -/
theorem nonstar_spectral_class_persisted :
    typeChangeRun = .ok [{ siriusBody with type := BodyType.planet }] ∧
    ({ siriusBody with type := BodyType.planet } : CelestialBody).type ≠
      BodyType.star ∧
    ({ siriusBody with type := BodyType.planet } : CelestialBody).spectral_class =
      some SpectralClass.A := by
  refine ⟨rfl, by decide, rfl⟩

/-- Claim C4, amended: any create payload whose type is not star and any
update payload whose own type field is not star (absent included, since the
validator reads the type of the payload, not of the stored record) is
rejected by schema validation when it carries a non-null spectral_class, so
it never reaches persistence; a persisted non-star record can nevertheless
retain a spectral_class when an update changes a star's type without
clearing the field. -/
theorem spectral_class_payload_validation_amended :
    (∀ p : CelestialBodyCreate, p.type ≠ BodyType.star →
       p.spectral_class ≠ none → validate_celestial_body_create p = false) ∧
    (∀ (u : CelestialBodyUpdate) (sc : SpectralClass),
       u.spectral_class = some (some sc) → u.type ≠ some BodyType.star →
       validate_celestial_body_update u = false) := by
  constructor
  · intro p ht hsc
    have h1 : validate_spectral_class p.spectral_class (some p.type) = false := by
      cases hs : p.spectral_class with
      | none => exact absurd hs hsc
      | some sc => simp [validate_spectral_class, ht]
    simp [validate_celestial_body_create, h1]
  · intro u sc hsc ht
    have h1 : u.spectral_class.all
        (fun v => validate_spectral_class v u.type) = false := by
      rw [hsc]
      simp [validate_spectral_class]
      cases hty : u.type with
      | none => simp
      | some t =>
        simp
        intro he
        exact absurd (by rw [hty, he]) ht
    simp [validate_celestial_body_update, h1]

/-- Claim C4, witness: a planet creation payload with spectral class G and an
update payload with spectral class G but no type field are both rejected. -/
theorem spectral_class_payload_validation_amended_witness :
    validate_celestial_body_create
      { name := "Vega", type := BodyType.planet,
        spectral_class := some SpectralClass.G } = false ∧
    validate_celestial_body_update
      { spectral_class := some (some SpectralClass.G) } = false := by
  constructor
  · exact spectral_class_payload_validation_amended.1
      { name := "Vega", type := BodyType.planet,
        spectral_class := some SpectralClass.G } (by decide) (by decide)
  · exact spectral_class_payload_validation_amended.2
      { spectral_class := some (some SpectralClass.G) } SpectralClass.G
      rfl (by decide)

/-! ## C1: duplicate unique keys -/

theorem bodyNamesUnique_append_fresh
    (store : List CelestialBody) (nb : CelestialBody)
    (hU : BodyNamesUnique store)
    (hfresh : store.any (fun b => b.name == nb.name) = false) :
    BodyNamesUnique (store ++ [nb]) := by
  rw [BodyNamesUnique, List.pairwise_append]
  refine ⟨hU, List.pairwise_singleton _ _, ?_⟩
  intro a ha c hc
  rw [List.mem_singleton] at hc
  subst hc
  simpa using List.any_eq_false.mp hfresh a ha

theorem userKeysUnique_append_fresh
    (users : List User) (nu : User) (hU : UserKeysUnique users)
    (hu : users.any (fun u => u.username == nu.username) = false)
    (he : users.any (fun u => u.email == nu.email) = false) :
    UserKeysUnique (users ++ [nu]) := by
  rw [UserKeysUnique, List.pairwise_append]
  refine ⟨hU, List.pairwise_singleton _ _, ?_⟩
  intro a ha c hc
  rw [List.mem_singleton] at hc
  subst hc
  exact ⟨by simpa using List.any_eq_false.mp hu a ha,
         by simpa using List.any_eq_false.mp he a ha⟩

theorem create_batch_go_fst_unique (ps : List CelestialBodyCreate) :
    ∀ (store : List CelestialBody) (nextId : Nat) (acc : List CelestialBody),
      BodyNamesUnique store →
      BodyNamesUnique (create_batch_go store nextId ps acc).1 := by
  induction ps with
  | nil =>
    intro store nextId acc hU
    simpa [create_batch_go] using hU
  | cons p rest ih =>
    intro store nextId acc hU
    by_cases hdup : store.any (fun b => b.name == p.name) = true
    · simpa [create_batch_go, hdup] using ih store nextId acc hU
    · have hdup' : store.any (fun b => b.name == p.name) = false := by
        simpa using hdup
      have hU' : BodyNamesUnique (store ++ [p.toBody nextId]) :=
        bodyNamesUnique_append_fresh store (p.toBody nextId) hU hdup'
      simpa [create_batch_go, hdup'] using
        ih (store ++ [p.toBody nextId]) (nextId + 1)
          (p.toBody nextId :: acc) hU'

/-- Claim C1, counterexample: an element of a POST /celestial-bodies/batch
request whose name duplicates an existing body does not make the operation
return a conflict error - the handler silently skips it and the request
succeeds with the duplicate omitted from the created list. -/
theorem batch_duplicate_returns_success_not_conflict :
    create_batch_bodies [marsBody] 2 [marsPayload] = .ok ([marsBody], []) := by
  rfl

/-- Claim C1, amended: single-body creation and user registration reject a
duplicate unique key (body name, username or email) with a conflict error,
and all three creation paths preserve uniqueness of the persisted keys - but
a duplicate element of a batch request is silently skipped rather than
answered with a conflict error. -/
theorem duplicate_unique_key_amended :
    (∀ (store : List CelestialBody) (newId : Nat) (p : CelestialBodyCreate),
       (∃ b ∈ store, b.name = p.name) →
       create_celestial_body store newId p = .error .badRequest) ∧
    (∀ (users : List User) (newId : Nat) (p : UserCreate) (salt : Nat),
       (∃ u ∈ users, u.username = p.username ∨ u.email = p.email) →
       register_user users newId p salt = .error .badRequest) ∧
    (∀ (store : List CelestialBody) (newId : Nat) (p : CelestialBodyCreate)
       (s' : List CelestialBody),
       create_celestial_body store newId p = .ok s' →
       BodyNamesUnique store → BodyNamesUnique s') ∧
    (∀ (store : List CelestialBody) (nextId : Nat)
       (ps : List CelestialBodyCreate),
       BodyNamesUnique store →
       BodyNamesUnique (create_batch_go store nextId ps []).1) ∧
    (∀ (store : List CelestialBody) (nextId : Nat) (p : CelestialBodyCreate)
       (ps : List CelestialBodyCreate) (acc : List CelestialBody),
       (∃ b ∈ store, b.name = p.name) →
       create_batch_go store nextId (p :: ps) acc =
         create_batch_go store nextId ps acc) ∧
    (∀ (users : List User) (newId : Nat) (p : UserCreate) (salt : Nat)
       (us' : List User),
       register_user users newId p salt = .ok us' →
       UserKeysUnique users → UserKeysUnique us') := by
  refine ⟨?_, ?_, ?_, ?_, ?_, ?_⟩
  · intro store newId p h
    have hany : store.any (fun b => b.name == p.name) = true := by
      rcases h with ⟨b, hb, he⟩
      exact List.any_eq_true.mpr ⟨b, hb, by simp [he]⟩
    simp [create_celestial_body, hany]
  · intro users newId p salt h
    by_cases hu : users.any (fun u => u.username == p.username) = true
    · simp [register_user, hu]
    · have hu' : users.any (fun u => u.username == p.username) = false := by
        simpa using hu
      have hm : users.any (fun u => u.email == p.email) = true := by
        rcases h with ⟨u, hmem, he | he⟩
        · exact absurd (List.any_eq_true.mpr ⟨u, hmem, by simp [he]⟩) hu
        · exact List.any_eq_true.mpr ⟨u, hmem, by simp [he]⟩
      simp [register_user, hu', hm]
  · intro store newId p s' h hU
    rw [create_celestial_body] at h
    split at h
    · simp at h
    · next hdup =>
      split at h
      · simp at h
      · have hs : store ++ [p.toBody newId] = s' := by
          injection h
        rw [← hs]
        exact bodyNamesUnique_append_fresh store (p.toBody newId) hU
          (by simpa using hdup)
  · intro store nextId ps hU
    exact create_batch_go_fst_unique ps store nextId [] hU
  · intro store nextId p ps acc h
    have hany : store.any (fun b => b.name == p.name) = true := by
      rcases h with ⟨b, hb, he⟩
      exact List.any_eq_true.mpr ⟨b, hb, by simp [he]⟩
    simp [create_batch_go, hany]
  · intro users newId p salt us' h hU
    rw [register_user] at h
    split at h
    · simp at h
    · next hu =>
      split at h
      · simp at h
      · next he =>
        injection h with hs
        rw [← hs]
        exact userKeysUnique_append_fresh users _ hU
          (by simpa using hu) (by simpa using he)

/-- Claim C1, witness: the single-create conflict, the register conflict, and
the batch skip, all at concrete duplicate inputs. -/
theorem duplicate_unique_key_amended_witness :
    create_celestial_body [marsBody] 2 marsPayload = .error .badRequest ∧
    register_user [demoUser] 2
      { username := "ann", email := "other@x.com", password := [65] } 9 =
      .error .badRequest ∧
    create_batch_go [marsBody] 2 [marsPayload] [] =
      create_batch_go [marsBody] 2 [] [] := by
  refine ⟨?_, ?_, ?_⟩
  · exact duplicate_unique_key_amended.1 [marsBody] 2 marsPayload
      ⟨marsBody, by simp, rfl⟩
  · exact duplicate_unique_key_amended.2.1 [demoUser] 2
      { username := "ann", email := "other@x.com", password := [65] } 9
      ⟨demoUser, by simp, Or.inl rfl⟩
  · exact duplicate_unique_key_amended.2.2.2.2.1 [marsBody] 2 marsPayload [] []
      ⟨marsBody, by simp, rfl⟩

/-! ## C9: observation updates cannot touch the linking fields -/

/-- Claim C9: the ObservationUpdate schema admits only the six descriptive
fields, so applying any update payload leaves astronomer_id,
celestial_body_id and observation_date (and the id) of every row exactly as
stored: the PUT handler maps each row's identity tuple to itself. -/
theorem observation_update_preserves_links :
    (∀ (o : Observation) (u : ObservationUpdate),
       (apply_observation_update o u).astronomer_id = o.astronomer_id ∧
       (apply_observation_update o u).celestial_body_id = o.celestial_body_id ∧
       (apply_observation_update o u).observation_date = o.observation_date) ∧
    (∀ (obs : List Observation) (i : Nat) (u : ObservationUpdate)
       (obs' : List Observation),
       update_observation obs i u = .ok obs' →
       obs'.map (fun o => (o.id, o.astronomer_id, o.celestial_body_id,
         o.observation_date)) =
       obs.map (fun o => (o.id, o.astronomer_id, o.celestial_body_id,
         o.observation_date))) := by
  constructor
  · intro o u
    exact ⟨rfl, rfl, rfl⟩
  · intro obs i u obs' h
    rw [update_observation] at h
    split at h
    · injection h with hs
      rw [← hs, List.map_map]
      apply List.map_congr_left
      intro o _
      by_cases ho : o.id = i
      · simp [ho, apply_observation_update]
      · simp [ho]
    · simp at h

/-- Claim C9, witness: updating the notes of the demo observation leaves its
identity tuple unchanged. -/
theorem observation_update_preserves_links_witness :
    update_observation [demoObservation] 1 demoNotesUpdate =
      .ok [apply_observation_update demoObservation demoNotesUpdate] ∧
    [apply_observation_update demoObservation demoNotesUpdate].map
      (fun o => (o.id, o.astronomer_id, o.celestial_body_id,
        o.observation_date)) =
    [demoObservation].map
      (fun o => (o.id, o.astronomer_id, o.celestial_body_id,
        o.observation_date)) := by
  refine ⟨rfl, ?_⟩
  exact observation_update_preserves_links.2 [demoObservation] 1
    demoNotesUpdate [apply_observation_update demoObservation demoNotesUpdate]
    rfl

/-! ## C3: partial PUT leaves omitted fields unchanged -/

/-- Claim C3: for each of the three entities, applying an update payload via
the PUT handler's setattr loop changes exactly the fields present in the
payload: the id always stays, and every field omitted from the payload keeps
its stored value. -/
theorem put_omitted_fields_unchanged :
    (∀ (b : CelestialBody) (u : CelestialBodyUpdate),
       (apply_celestial_body_update b u).id = b.id ∧
       (u.name = none → (apply_celestial_body_update b u).name = b.name) ∧
       (u.type = none → (apply_celestial_body_update b u).type = b.type) ∧
       (u.description = none →
         (apply_celestial_body_update b u).description = b.description) ∧
       (u.mass = none → (apply_celestial_body_update b u).mass = b.mass) ∧
       (u.radius = none → (apply_celestial_body_update b u).radius = b.radius) ∧
       (u.temperature = none →
         (apply_celestial_body_update b u).temperature = b.temperature) ∧
       (u.distance_from_earth = none →
         (apply_celestial_body_update b u).distance_from_earth =
           b.distance_from_earth) ∧
       (u.spectral_class = none →
         (apply_celestial_body_update b u).spectral_class = b.spectral_class) ∧
       (u.absolute_magnitude = none →
         (apply_celestial_body_update b u).absolute_magnitude =
           b.absolute_magnitude) ∧
       (u.apparent_magnitude = none →
         (apply_celestial_body_update b u).apparent_magnitude =
           b.apparent_magnitude) ∧
       (u.right_ascension = none →
         (apply_celestial_body_update b u).right_ascension =
           b.right_ascension) ∧
       (u.declination = none →
         (apply_celestial_body_update b u).declination = b.declination) ∧
       (u.parent_id = none →
         (apply_celestial_body_update b u).parent_id = b.parent_id)) ∧
    (∀ (a : Astronomer) (u : AstronomerUpdate),
       (apply_astronomer_update a u).id = a.id ∧
       (u.first_name = none →
         (apply_astronomer_update a u).first_name = a.first_name) ∧
       (u.last_name = none →
         (apply_astronomer_update a u).last_name = a.last_name) ∧
       (u.birth_date = none →
         (apply_astronomer_update a u).birth_date = a.birth_date) ∧
       (u.death_date = none →
         (apply_astronomer_update a u).death_date = a.death_date) ∧
       (u.nationality = none →
         (apply_astronomer_update a u).nationality = a.nationality) ∧
       (u.biography = none →
         (apply_astronomer_update a u).biography = a.biography) ∧
       (u.achievements = none →
         (apply_astronomer_update a u).achievements = a.achievements) ∧
       (u.notable_discoveries = none →
         (apply_astronomer_update a u).notable_discoveries =
           a.notable_discoveries) ∧
       (u.academic_degree = none →
         (apply_astronomer_update a u).academic_degree = a.academic_degree) ∧
       (u.institution = none →
         (apply_astronomer_update a u).institution = a.institution) ∧
       (u.is_active = none →
         (apply_astronomer_update a u).is_active = a.is_active)) ∧
    (∀ (o : Observation) (u : ObservationUpdate),
       (apply_observation_update o u).id = o.id ∧
       (u.location = none →
         (apply_observation_update o u).location = o.location) ∧
       (u.equipment = none →
         (apply_observation_update o u).equipment = o.equipment) ∧
       (u.duration_hours = none →
         (apply_observation_update o u).duration_hours = o.duration_hours) ∧
       (u.weather_conditions = none →
         (apply_observation_update o u).weather_conditions =
           o.weather_conditions) ∧
       (u.notes = none → (apply_observation_update o u).notes = o.notes) ∧
       (u.data_collected = none →
         (apply_observation_update o u).data_collected = o.data_collected)) := by
  refine ⟨fun b u => ?_, fun a u => ?_, fun o u => ?_⟩
  · refine ⟨rfl, ?_, ?_, ?_, ?_, ?_, ?_, ?_, ?_, ?_, ?_, ?_, ?_, ?_⟩ <;>
      (intro h; simp [apply_celestial_body_update, h])
  · refine ⟨rfl, ?_, ?_, ?_, ?_, ?_, ?_, ?_, ?_, ?_, ?_, ?_⟩ <;>
      (intro h; simp [apply_astronomer_update, h])
  · refine ⟨rfl, ?_, ?_, ?_, ?_, ?_, ?_⟩ <;>
      (intro h; simp [apply_observation_update, h])

/-- Claim C3, witness: the all-fields-omitted update payload leaves concrete
records of each entity untouched in a sample field. -/
theorem put_omitted_fields_unchanged_witness :
    ({} : CelestialBodyUpdate).name = none ∧
    (apply_celestial_body_update marsBody {}).name = marsBody.name ∧
    (apply_astronomer_update demoAstronomer {}).nationality =
      demoAstronomer.nationality ∧
    (apply_observation_update demoObservation {}).location =
      demoObservation.location := by
  refine ⟨rfl, ?_, ?_, ?_⟩
  · exact (put_omitted_fields_unchanged.1 marsBody {}).2.1 rfl
  · exact (put_omitted_fields_unchanged.2.1 demoAstronomer {}).2.2.2.2.2.1 rfl
  · exact (put_omitted_fields_unchanged.2.2 demoObservation {}).2.1 rfl

/-! ## C2: at most one observation per astronomer, body and calendar date -/

theorem obsStep_preserves_unique {s s' : List Observation}
    (hstep : ObsStep s s') (hU : ObsUnique s) : ObsUnique s' := by
  cases hstep with
  | create astronomers bodies s s' newId p h =>
    rw [create_observation] at h
    split at h
    · simp at h
    · split at h
      · simp at h
      · split at h
        · simp at h
        · next hdup =>
          injection h with hs
          rw [ObsUnique, ← hs, List.pairwise_append]
          refine ⟨hU, List.pairwise_singleton _ _, ?_⟩
          intro a ha c hc
          rw [List.mem_singleton] at hc
          subst hc
          intro hc
          apply hdup
          refine List.any_eq_true.mpr ⟨a, ha, ?_⟩
          simp only [obsTriple, ObservationCreate.toObservation,
            Prod.mk.injEq] at hc
          simp [hc.1, hc.2.1, hc.2.2]
  | update s s' i u h =>
    rw [update_observation] at h
    split at h
    · injection h with hs
      have hg : ∀ x : Observation,
          obsTriple (if x.id == i then apply_observation_update x u else x) =
            obsTriple x := by
        intro x
        by_cases hx : (x.id == i) = true <;>
          simp [hx, obsTriple, apply_observation_update]
      rw [ObsUnique, ← hs, List.pairwise_map]
      refine hU.imp ?_
      intro a b hne hc
      rw [hg a, hg b] at hc
      exact hne hc
    · simp at h
  | delete s s' i h =>
    rw [delete_observation] at h
    split at h
    · injection h with hs
      rw [ObsUnique, ← hs]
      exact hU.sublist (List.filter_sublist s)
    · simp at h
  | cascade s s' h =>
    exact hU.sublist h

/-- Claim C2: every observation state reachable from the empty table through
the create, update and delete handlers (and cascade deletions) satisfies the
uniqueness invariant - no two rows share (astronomer_id, celestial_body_id,
calendar date) - and a create request duplicating the triple of an existing
row (with the referenced astronomer and body present) is rejected with a
conflict. -/
theorem observation_calendar_uniqueness :
    (∀ s, ObsReachable s → ObsUnique s) ∧
    (∀ (astronomers : List Astronomer) (bodies : List CelestialBody)
       (s : List Observation) (newId : Nat) (p : ObservationCreate),
       astronomers.any (fun a => a.id == p.astronomer_id) = true →
       bodies.any (fun b => b.id == p.celestial_body_id) = true →
       (∃ o ∈ s, obsTriple o =
         (p.astronomer_id, p.celestial_body_id,
          p.observation_date.dateOnly)) →
       create_observation astronomers bodies s newId p =
         .error .badRequest) := by
  constructor
  · intro s h
    induction h with
    | refl => exact List.Pairwise.nil
    | tail _ hstep ih => exact obsStep_preserves_unique hstep ih
  · intro astronomers bodies s newId p h1 h2 h3
    have hany : s.any (fun o =>
        o.astronomer_id == p.astronomer_id &&
        o.celestial_body_id == p.celestial_body_id &&
        o.observation_date.dateOnly == p.observation_date.dateOnly) = true := by
      rcases h3 with ⟨o, ho, he⟩
      refine List.any_eq_true.mpr ⟨o, ho, ?_⟩
      simp only [obsTriple, Prod.mk.injEq] at he
      simp [he.1, he.2.1, he.2.2]
    simp [create_observation, h1, h2, hany]

/-- Claim C2, witness: the state holding only the demo observation is
reachable by one create step, satisfies the invariant, and a second create
duplicating its (astronomer, body, date) triple at a different time of day
is rejected with 400. -/
theorem observation_calendar_uniqueness_witness :
    ObsUnique [demoObservation] ∧
    create_observation [demoAstronomer] [marsBody] [demoObservation] 2
      demoDuplicateObservation = .error .badRequest := by
  constructor
  · apply observation_calendar_uniqueness.1
    exact Relation.ReflTransGen.tail Relation.ReflTransGen.refl
      (ObsStep.create [demoAstronomer] [marsBody] [] [demoObservation] 1
        demoObservationCreate rfl)
  · exact observation_calendar_uniqueness.2 [demoAstronomer] [marsBody]
      [demoObservation] 2 demoDuplicateObservation rfl rfl
      ⟨demoObservation, by simp, rfl⟩

/-! ## C5: the composed search predicate is the AND of the supplied filters -/

theorem search_clause_name (o : Option String) (b : CelestialBody) :
    ((match o with
      | some s => if s = "" then [] else [fun x : CelestialBody => ilike_contains x.name s]
      | none => ([] : List (CelestialBody → Bool))).all fun f => f b) = true ↔
    (∀ s, o = some s →
      List.IsInfix (s.toList.map Char.toLower)
        (b.name.toList.map Char.toLower)) := by
  cases o with
  | none => simp
  | some s =>
    by_cases hs : s = ""
    · subst hs
      have hred : (if ("" : String) = "" then ([] : List (CelestialBody → Bool))
          else [fun x : CelestialBody => ilike_contains x.name ""]) = [] :=
        if_pos rfl
      show ((if ("" : String) = "" then ([] : List (CelestialBody → Bool))
          else [fun x : CelestialBody => ilike_contains x.name ""]).all
            fun f => f b) = true ↔ _
      rw [hred]
      simp only [List.all_nil, true_iff]
      intro s1 hs1
      injection hs1 with hs2
      subst hs2
      exact List.nil_infix
    · simp [hs, ilike_contains_eq_true]

theorem search_clause_type (o : Option BodyType) (b : CelestialBody) :
    ((match o with
      | some t => [fun x : CelestialBody => x.type == t]
      | none => ([] : List (CelestialBody → Bool))).all fun f => f b) = true ↔
    (∀ t, o = some t → b.type = t) := by
  cases o <;> simp

theorem search_clause_min_distance (o : Option Rat) (b : CelestialBody) :
    ((match o with
      | some m => [fun x : CelestialBody => sql_ge x.distance_from_earth m]
      | none => ([] : List (CelestialBody → Bool))).all fun f => f b) = true ↔
    (∀ m, o = some m → ∃ d, b.distance_from_earth = some d ∧ m ≤ d) := by
  cases o <;> simp [sql_ge_eq_true]

theorem search_clause_max_distance (o : Option Rat) (b : CelestialBody) :
    ((match o with
      | some m => [fun x : CelestialBody => sql_le x.distance_from_earth m]
      | none => ([] : List (CelestialBody → Bool))).all fun f => f b) = true ↔
    (∀ m, o = some m → ∃ d, b.distance_from_earth = some d ∧ d ≤ m) := by
  cases o <;> simp [sql_le_eq_true]

theorem search_clause_min_magnitude (o : Option Rat) (b : CelestialBody) :
    ((match o with
      | some m => [fun x : CelestialBody => sql_ge x.apparent_magnitude m]
      | none => ([] : List (CelestialBody → Bool))).all fun f => f b) = true ↔
    (∀ m, o = some m → ∃ d, b.apparent_magnitude = some d ∧ m ≤ d) := by
  cases o <;> simp [sql_ge_eq_true]

theorem search_clause_max_magnitude (o : Option Rat) (b : CelestialBody) :
    ((match o with
      | some m => [fun x : CelestialBody => sql_le x.apparent_magnitude m]
      | none => ([] : List (CelestialBody → Bool))).all fun f => f b) = true ↔
    (∀ m, o = some m → ∃ d, b.apparent_magnitude = some d ∧ d ≤ m) := by
  cases o <;> simp [sql_le_eq_true]

theorem search_clause_spectral (o : Option SpectralClass) (b : CelestialBody) :
    ((match o with
      | some sc => [fun x : CelestialBody => x.spectral_class == some sc]
      | none => ([] : List (CelestialBody → Bool))).all fun f => f b) = true ↔
    (∀ sc, o = some sc → b.spectral_class = some sc) := by
  cases o <;> simp

theorem search_clause_has_obs (obs : List Observation) (o : Option Bool)
    (b : CelestialBody) :
    ((match o with
      | some true => [fun x : CelestialBody => obs.any (fun o2 => o2.celestial_body_id == x.id)]
      | some false =>
          [fun x : CelestialBody => !(obs.any (fun o2 => o2.celestial_body_id == x.id))]
      | none => ([] : List (CelestialBody → Bool))).all fun f => f b) = true ↔
    ((o = some true → ∃ o2 ∈ obs, o2.celestial_body_id = b.id) ∧
     (o = some false → ¬ ∃ o2 ∈ obs, o2.celestial_body_id = b.id)) := by
  cases o with
  | none => simp
  | some v => cases v <;> simp [List.any_eq_true]

/-- Claim C5: a celestial body is accepted by the predicate assembled by
apply_search_filters exactly when it satisfies every supplied filter, where a
filter left absent excludes no record (SatisfiesSearch is the spec-side
conjunction of the supplied filters). -/
theorem search_filters_equal_conjunction (obs : List Observation)
    (q : CelestialBodySearch) (b : CelestialBody) :
    matches_search obs q b = true ↔ SatisfiesSearch obs q b := by
  unfold matches_search apply_search_filters SatisfiesSearch
  simp only [List.nil_append, List.all_append, Bool.and_eq_true]
  rw [search_clause_name, search_clause_type, search_clause_min_distance,
    search_clause_max_distance, search_clause_min_magnitude,
    search_clause_max_magnitude, search_clause_spectral,
    search_clause_has_obs]
  tauto

/-- Claim C5, witness: a concrete planet passes a type filter both on the
executable side and on the spec side. -/
theorem search_filters_equal_conjunction_witness :
    matches_search [] { type := some BodyType.planet } marsBody = true ∧
    SatisfiesSearch [] { type := some BodyType.planet } marsBody := by
  have h : matches_search [] { type := some BodyType.planet } marsBody = true := by
    decide
  exact ⟨h, (search_filters_equal_conjunction []
    { type := some BodyType.planet } marsBody).mp h⟩

end AstronomyApi
